import Mathlib

/-!
Verification of the KPI core of the ngezi_dashboard repository.

Shallow embedding of `src/ngezi_dashboard/kpis.py`,
`src/ngezi_dashboard/transforms.py` and the static configuration in
`src/ngezi_dashboard/config.py`.  Python floats are modelled as `ℚ`;
a possibly-missing value (NaN / absent column, i.e. anything for which
`pd.isna` is true) is modelled as `Option ℚ` with `none` for missing.
-/

/-! ## Configuration (`config.py`) -/

/-- `PLANT_NAME` constant from `config.py`. -/
def PLANT_NAME : String := "Ngezi Concentrator"

/-- One `KPI_REGISTRY` entry: direction, display unit, amber-band tolerance. -/
structure KpiDef where
  direction : String
  unit : String
  amber_band : ℚ
deriving DecidableEq

/-- `KPI_REGISTRY` from `config.py`, as an association list (insertion order kept). -/
def KPI_REGISTRY : List (String × KpiDef) :=
  [ ("crushed_tonnage", ⟨"higher_is_better", "t", 5⟩),
    ("milling_rate_tph", ⟨"higher_is_better", "tph", 5⟩),
    ("milled_tonnage", ⟨"higher_is_better", "t", 5⟩),
    ("grind_pct_minus75", ⟨"higher_is_better", "%", 3⟩),
    ("plant_running_time_pct", ⟨"higher_is_better", "%", 3⟩),
    ("mass_pull_pct", ⟨"higher_is_better", "%", 3⟩),
    ("recovery_6e_pct", ⟨"higher_is_better", "%", 2⟩),
    ("mill_ball_consumption_gt", ⟨"lower_is_better", "g/t", 5⟩),
    ("filter_cake_moisture_pct", ⟨"lower_is_better", "%", 3⟩),
    ("metal_unaccounted_for_pct", ⟨"lower_is_better", "%", 3⟩),
    ("raw_water_m3t", ⟨"lower_is_better", "m3/t", 5⟩),
    ("total_cost", ⟨"lower_is_better", "USD", 5⟩) ]

/-- `KPI_LABEL_MAP` from `config.py`: raw scorecard label → canonical KPI name. -/
def KPI_LABEL_MAP : List (String × String) :=
  [ ("Crushed tonnage", "crushed_tonnage"),
    ("Milling rate t/h", "milling_rate_tph"),
    ("Milled tonnage", "milled_tonnage"),
    ("Grind (%-75 microns)", "grind_pct_minus75"),
    ("Plant running time %", "plant_running_time_pct"),
    ("Mass pull (%)", "mass_pull_pct"),
    ("6E Recovery (%)", "recovery_6e_pct"),
    ("Mill Ball consumption g/t", "mill_ball_consumption_gt"),
    ("Filter cake moisture (%)", "filter_cake_moisture_pct"),
    ("Metal Unaccounted For (%)", "metal_unaccounted_for_pct"),
    ("Raw water consumption (m3/t)", "raw_water_m3t"),
    ("Total Cost", "total_cost") ]

/-- `dict.get(key)` on an association list: first binding wins, `none` if absent. -/
def dictGet {α : Type} (m : List (String × α)) (k : String) : Option α :=
  (m.find? (fun p => p.1 == k)).map (fun p => p.2)

/-- `KPI_REGISTRY.get(name, default).get("direction", "higher_is_better")`. -/
def registryDirection (kpi_name : String) : String :=
  ((dictGet KPI_REGISTRY kpi_name).map (fun d => d.direction)).getD "higher_is_better"

/-- `KPI_REGISTRY.get(name, default).get("amber_band", 5.0)`. -/
def registryAmberBand (kpi_name : String) : ℚ :=
  ((dictGet KPI_REGISTRY kpi_name).map (fun d => d.amber_band)).getD 5

/-! ## `kpis.py`: calc_variance and classify_performance -/

/-- `calc_variance` from `kpis.py` lines 17-26: returns
`(absolute_variance, pct_variance)`, the percentage being `none` when
`budget == 0`. -/
def calc_variance (actual budget : ℚ) : ℚ × Option ℚ :=
  let absolute := actual - budget
  if budget = 0 then (absolute, none)
  else (absolute, some (absolute / budget * 100))

/-- `classify_performance` from `kpis.py` lines 29-68.  `actual` and `budget`
are `Option ℚ` (`none` models a NaN argument, for which `pd.isna` is true).
The function is total: it always returns one of the four status strings. -/
def classify_performance (actual budget : Option ℚ) (direction : String)
    (amber_band_pct : ℚ) : String :=
  match actual, budget with
  | none, _ => "grey"
  | _, none => "grey"
  | some a, some b =>
    if b = 0 then "grey"
    else if direction = "higher_is_better" then
      if b ≤ a then "green"
      else if b * (1 - amber_band_pct / 100) ≤ a then "amber"
      else "red"
    else
      -- source comment on the final branch: `else:  # lower_is_better`
      if a ≤ b then "green"
      else if a ≤ b * (1 + amber_band_pct / 100) then "amber"
      else "red"

/-- Quality rank of a RAG status: red < amber < green (grey ranked with red;
it cannot occur for present operands with a nonzero budget). -/
def rag_rank (s : String) : ℕ :=
  if s = "green" then 2 else if s = "amber" then 1 else 0

/-! ## `transforms.py`: build_fact_monthly_kpi -/

/-- One wide row of the KPI scorecard (output of `load_kpi_scorecard`).
`cells` models `kpi_row.get(col)` on the numeric period columns; `none`
stands for an absent column or a NaN cell. -/
structure KpiScorecardRow where
  kpi : String
  comments : Option String
  cells : String → Option ℚ

/-- One row of `fact_monthly_kpi` (the dict appended to `rows` in
`build_fact_monthly_kpi`). -/
structure KpiFactRow where
  period : String
  plant : String
  kpi_name : String
  actual : Option ℚ
  budget : Option ℚ
  variance : Option ℚ
  variance_pct : Option ℚ
  direction : String
  comments : Option String
deriving DecidableEq

/-- `_PERIOD_LABELS` from `transforms.py`, in dict insertion order:
period column-name stem → period label. -/
def PERIOD_LABELS : List (String × String) :=
  [ ("q1", "2020-Q1"),
    ("q2_ytd", "2020-Q2-YTD"),
    ("aug", "2020-08"),
    ("q3", "2020-Q3"),
    ("fy20_ytd", "FY2020-YTD") ]

/-- Body of the inner loop of `build_fact_monthly_kpi` (lines 67-95): the
fact row emitted for one scorecard row and one (column-stem, period-label)
pair, or `none` when both actual and budget are missing (the `continue`). -/
def buildKpiPeriodRow (r : KpiScorecardRow) (kpi_name direction : String)
    (pl : String × String) : Option KpiFactRow :=
  let actual := r.cells (pl.1 ++ "_actual")
  let budget := r.cells (pl.1 ++ "_budget")
  let var_pct := r.cells (pl.1 ++ "_var_pct")
  if actual = none ∧ budget = none then none
  else some
    { period := pl.2
      plant := PLANT_NAME
      kpi_name := kpi_name
      actual := actual
      budget := budget
      variance :=
        match actual, budget with
        | some a, some b => some (a - b)
        | _, _ => none
      variance_pct := var_pct
      direction := direction
      comments := r.comments }

/-- `build_fact_monthly_kpi` from `transforms.py` lines 45-99. -/
def build_fact_monthly_kpi (df : List KpiScorecardRow) : List KpiFactRow :=
  df.flatMap (fun r =>
    let kpi_name := (dictGet KPI_LABEL_MAP r.kpi).getD r.kpi
    let direction := registryDirection kpi_name
    PERIOD_LABELS.filterMap (buildKpiPeriodRow r kpi_name direction))

/-! ## Claim theorems about calc_variance and classify_performance -/

/-- Helper: which status a green/amber/red if-chain returns, in terms of its
two conditions. -/
theorem rag_chain (c1 c2 : Prop) [Decidable c1] [Decidable c2] :
    ((if c1 then "green" else if c2 then "amber" else "red") = ("green" : String) ↔ c1) ∧
    ((if c1 then "green" else if c2 then "amber" else "red") = ("amber" : String) ↔ ¬c1 ∧ c2) ∧
    ((if c1 then "green" else if c2 then "amber" else "red") = ("red" : String) ↔ ¬c1 ∧ ¬c2) := by
  by_cases h1 : c1 <;> by_cases h2 : c2 <;> simp [h1, h2]

/-- Helper: on present operands with nonzero budget and direction
`higher_is_better`, `classify_performance` is the green/amber/red chain. -/
theorem classify_higher_eq (a b p : ℚ) (hb : b ≠ 0) :
    classify_performance (some a) (some b) "higher_is_better" p =
      if b ≤ a then "green" else if b * (1 - p / 100) ≤ a then "amber" else "red" := by
  simp only [classify_performance, if_neg hb, if_pos rfl, if_true,
    eq_self_iff_true]

/-- Helper: on present operands with nonzero budget and any direction other
than `higher_is_better`, `classify_performance` takes the source's final
`else` branch. -/
theorem classify_other_eq (a b p : ℚ) (d : String) (hb : b ≠ 0)
    (hd : ¬ d = "higher_is_better") :
    classify_performance (some a) (some b) d p =
      if a ≤ b then "green" else if a ≤ b * (1 + p / 100) then "amber" else "red" := by
  simp only [classify_performance, if_neg hb, if_neg hd]

/-- Helper: on present operands with nonzero budget and direction
`lower_is_better`, `classify_performance` is the green/amber/red chain. -/
theorem classify_lower_eq (a b p : ℚ) (hb : b ≠ 0) :
    classify_performance (some a) (some b) "lower_is_better" p =
      if a ≤ b then "green" else if a ≤ b * (1 + p / 100) then "amber" else "red" :=
  classify_other_eq a b p "lower_is_better" hb (by decide)

/-- Claim C1: for present operands with a nonzero budget,
`classify_performance` implements exactly the spec's decision table:
with `higher_is_better`, green iff `actual >= budget`, amber iff
`actual < budget` and `actual >= budget * (1 - amber_band_pct/100)`,
red otherwise; with `lower_is_better`, green iff `actual <= budget`,
amber iff `actual > budget` and `actual <= budget * (1 + amber_band_pct/100)`,
red otherwise. -/
theorem classify_decision_table (a b p : ℚ) (hb : b ≠ 0) :
    (classify_performance (some a) (some b) "higher_is_better" p = "green" ↔ b ≤ a) ∧
    (classify_performance (some a) (some b) "higher_is_better" p = "amber" ↔
      a < b ∧ b * (1 - p / 100) ≤ a) ∧
    (classify_performance (some a) (some b) "higher_is_better" p = "red" ↔
      a < b ∧ a < b * (1 - p / 100)) ∧
    (classify_performance (some a) (some b) "lower_is_better" p = "green" ↔ a ≤ b) ∧
    (classify_performance (some a) (some b) "lower_is_better" p = "amber" ↔
      b < a ∧ a ≤ b * (1 + p / 100)) ∧
    (classify_performance (some a) (some b) "lower_is_better" p = "red" ↔
      b < a ∧ b * (1 + p / 100) < a) := by
  rw [classify_higher_eq a b p hb, classify_lower_eq a b p hb]
  obtain ⟨hg1, ha1, hr1⟩ := rag_chain (b ≤ a) (b * (1 - p / 100) ≤ a)
  obtain ⟨hg2, ha2, hr2⟩ := rag_chain (a ≤ b) (a ≤ b * (1 + p / 100))
  refine ⟨hg1, ?_, ?_, hg2, ?_, ?_⟩
  · rw [ha1]; simp [not_le]
  · rw [hr1]; simp [not_le]
  · rw [ha2]; simp [not_le]
  · rw [hr2]; simp [not_le]

/-- Witness for C1: Scenario B of the spec, `classify(97, 100,
higher_is_better, 5.0) == amber`, obtained from the decision table. -/
theorem classify_decision_table_witness :
    classify_performance (some 97) (some 100) "higher_is_better" 5 = "amber" :=
  ((classify_decision_table 97 100 5 (by norm_num)).2.1).mpr
    (by constructor <;> norm_num)

/-- Counterexample to claim C2: the unrecognized-direction fallback is not
`higher_is_better`.  With `actual = 110`, `budget = 100`, band `5`, the
direction string "weird" yields "red" while `higher_is_better` yields
"green". -/
theorem classify_fallback_counterexample :
    classify_performance (some 110) (some 100) "weird" 5 = "red" ∧
    classify_performance (some 110) (some 100) "higher_is_better" 5 = "green" ∧
    ("red" : String) ≠ "green" := by
  refine ⟨?_, ?_, by decide⟩
  · rw [classify_other_eq 110 100 5 "weird" (by norm_num) (by decide)]
    norm_num
  · rw [classify_higher_eq 110 100 5 (by norm_num)]
    norm_num

/-- Claim C2 amended: any direction string other than `higher_is_better`
takes the source's final `else` branch, so the unrecognized-direction
fallback is `lower_is_better` (for all operands, present or not). -/
theorem classify_fallback_is_lower (actual budget : Option ℚ) (p : ℚ)
    (d : String) (hd : d ≠ "higher_is_better") :
    classify_performance actual budget d p =
      classify_performance actual budget "lower_is_better" p := by
  cases actual with
  | none => cases budget <;> rfl
  | some a =>
    cases budget with
    | none => rfl
    | some b =>
      by_cases hb : b = 0
      · subst hb; simp [classify_performance]
      · rw [classify_other_eq a b p d hb hd, classify_lower_eq a b p hb]

/-- Witness for the amended C2 at a concrete input: direction "weird"
behaves like `lower_is_better` on `(110, 100)`. -/
theorem classify_fallback_is_lower_witness :
    classify_performance (some 110) (some 100) "weird" 5 =
      classify_performance (some 110) (some 100) "lower_is_better" 5 :=
  classify_fallback_is_lower (some 110) (some 100) 5 "weird" (by decide)

/-- Claim C4: whenever `actual` is missing, or `budget` is missing, or
`budget == 0`, `classify_performance` returns "grey", whatever the
direction and band; totality (never raises) is the totality of the Lean
function itself. -/
theorem classify_grey_on_degenerate (actual budget : Option ℚ)
    (d : String) (p : ℚ)
    (h : actual = none ∨ budget = none ∨ budget = some 0) :
    classify_performance actual budget d p = "grey" := by
  rcases h with h | h | h
  · subst h; cases budget <;> rfl
  · subst h; cases actual <;> rfl
  · subst h; cases actual <;> simp [classify_performance]

/-- Witness for C4 at a concrete input: missing actual gives "grey". -/
theorem classify_grey_on_degenerate_witness :
    classify_performance none (some 5) "higher_is_better" 5 = "grey" :=
  classify_grey_on_degenerate none (some 5) "higher_is_better" 5 (Or.inl rfl)

/-- Claim C5: for fixed `budget > 0` and `amber_band_pct ≥ 0` with
direction `higher_is_better`, the classification is monotonically
non-decreasing in quality (red < amber < green) as `actual` increases. -/
theorem classify_monotone_higher (b p a1 a2 : ℚ)
    (hb : 0 < b) (_hp : 0 ≤ p) (ha : a1 ≤ a2) :
    rag_rank (classify_performance (some a1) (some b) "higher_is_better" p) ≤
      rag_rank (classify_performance (some a2) (some b) "higher_is_better" p) := by
  have hb0 : b ≠ 0 := ne_of_gt hb
  rw [classify_higher_eq a1 b p hb0, classify_higher_eq a2 b p hb0]
  split_ifs with h1 h2 h3 h4 h5 h6 h7 h8 <;>
    first
      | decide
      | (exfalso; linarith)

/-- Witness for C5 at concrete inputs: budget 100, band 5, actuals 90 ≤ 97. -/
theorem classify_monotone_higher_witness :
    rag_rank (classify_performance (some 90) (some 100) "higher_is_better" 5) ≤
      rag_rank (classify_performance (some 97) (some 100) "higher_is_better" 5) :=
  classify_monotone_higher 100 5 90 97 (by norm_num) (by norm_num) (by norm_num)

/-- Claim C7: `calc_variance` returns
`(actual - budget, (actual - budget) / budget * 100)`, the percentage
component being `none` (never infinity or a fabricated number) when
`budget == 0` while the absolute component is still `actual - budget`;
in particular `calc_variance 110 100 = (10, some 10)` and
`calc_variance 110 0 = (110, none)`. -/
theorem calc_variance_spec (a b : ℚ) :
    calc_variance a b =
      (a - b, if b = 0 then none else some ((a - b) / b * 100)) ∧
    calc_variance 110 100 = (10, some 10) ∧
    calc_variance 110 0 = (110, none) := by
  refine ⟨?_, ?_, ?_⟩
  · by_cases hb : b = 0 <;> simp [calc_variance, hb]
  · norm_num [calc_variance]
  · norm_num [calc_variance]

/-! ## Claim theorems about build_fact_monthly_kpi -/

/-- Cell table of a concrete scorecard row carrying an upstream-supplied
variance percentage that disagrees with the recomputed variance. -/
def upstreamCells : String → Option ℚ := fun c =>
  if c = "q1_actual" then some 110
  else if c = "q1_budget" then some 100
  else if c = "q1_var_pct" then some 999
  else none

/-- Concrete scorecard row: Crushed tonnage, Q1 actual 110, budget 100,
upstream variance percentage 999. -/
def upstreamRow : KpiScorecardRow :=
  { kpi := "Crushed tonnage", comments := none, cells := upstreamCells }

/-- The fact row `build_fact_monthly_kpi` emits for `upstreamRow`. -/
def upstreamFact : KpiFactRow :=
  { period := "2020-Q1", plant := "Ngezi Concentrator",
    kpi_name := "crushed_tonnage", actual := some 110, budget := some 100,
    variance := some (110 - 100), variance_pct := some 999,
    direction := "higher_is_better", comments := none }

/-- Counterexample to claim C3: on a row with actual 110, budget 100 and an
upstream variance percentage of 999, the emitted fact row keeps
`variance_pct = 999` although `variance / budget * 100 = 10`: the builder
recomputes `variance` but passes the upstream percentage through. -/
theorem fact_builder_var_pct_counterexample :
    build_fact_monthly_kpi [upstreamRow] = [upstreamFact] ∧
    upstreamFact.variance = some ((110 : ℚ) - 100) ∧
    upstreamFact.budget = some 100 ∧
    upstreamFact.variance_pct = some 999 ∧
    (((110 : ℚ) - 100) / 100 * 100 = 10) ∧ ((999 : ℚ) ≠ 10) := by
  refine ⟨rfl, rfl, rfl, rfl, by norm_num, by norm_num⟩

/-- Claim C3 amended: in every emitted fact row, `variance` is recomputed
as `actual - budget` when both are present, but `variance_pct` is passed
through verbatim from the source's per-period variance-percentage cell
(it is not recomputed from the recomputed variance). -/
theorem fact_builder_variance_recomputed (df : List KpiScorecardRow)
    (f : KpiFactRow) (hf : f ∈ build_fact_monthly_kpi df) :
    (∀ a b : ℚ, f.actual = some a → f.budget = some b →
      f.variance = some (a - b)) ∧
    ∃ r ∈ df, ∃ pl ∈ PERIOD_LABELS,
      f.actual = r.cells (pl.1 ++ "_actual") ∧
      f.budget = r.cells (pl.1 ++ "_budget") ∧
      f.variance_pct = r.cells (pl.1 ++ "_var_pct") := by
  simp only [build_fact_monthly_kpi, List.mem_flatMap] at hf
  obtain ⟨r, hr, hmem⟩ := hf
  simp only [List.mem_filterMap] at hmem
  obtain ⟨pl, hpl, hbuild⟩ := hmem
  simp only [buildKpiPeriodRow] at hbuild
  by_cases hc : r.cells (pl.1 ++ "_actual") = none ∧ r.cells (pl.1 ++ "_budget") = none
  · rw [if_pos hc] at hbuild; exact absurd hbuild (by simp)
  · rw [if_neg hc] at hbuild
    obtain rfl := Option.some_injective _ hbuild
    refine ⟨?_, r, hr, pl, hpl, rfl, rfl, rfl⟩
    intro a b ha hb
    simp only at ha hb
    simp [ha, hb]

/-- Witness for the amended C3: the concrete builder output keeps the
upstream 999 while recomputing variance 110 - 100. -/
theorem fact_builder_variance_recomputed_witness :
    upstreamFact.variance = some ((110 : ℚ) - 100) :=
  (fact_builder_variance_recomputed [upstreamRow] upstreamFact
      (show upstreamFact ∈ [upstreamFact] from List.mem_singleton.mpr rfl)).1
    110 100 rfl rfl

/-- Helper: when not both actual and budget are missing, `buildKpiPeriodRow`
emits a row whose period, name, actual and budget come from its inputs. -/
theorem buildKpiPeriodRow_some (r : KpiScorecardRow) (kn dir : String)
    (pl : String × String)
    (hc : ¬ (r.cells (pl.1 ++ "_actual") = none ∧
             r.cells (pl.1 ++ "_budget") = none)) :
    ∃ f, buildKpiPeriodRow r kn dir pl = some f ∧ f.period = pl.2 ∧
      f.kpi_name = kn ∧ f.actual = r.cells (pl.1 ++ "_actual") ∧
      f.budget = r.cells (pl.1 ++ "_budget") := by
  simp only [buildKpiPeriodRow, if_neg hc]
  exact ⟨_, rfl, rfl, rfl, rfl, rfl⟩

/-- Claim C8: a (KPI, period) pair yields a fact row exactly when at least
one of actual and budget is present: every emitted row has one of the two
present, and every pair with one present yields a row carrying that pair's
period label, cell values, and the label-map translation of the raw label
(an unmapped raw label passes through unchanged as `kpi_name`). -/
theorem fact_builder_emission (df : List KpiScorecardRow) :
    (∀ f ∈ build_fact_monthly_kpi df, f.actual ≠ none ∨ f.budget ≠ none) ∧
    (∀ r ∈ df, ∀ pl ∈ PERIOD_LABELS,
      (r.cells (pl.1 ++ "_actual") ≠ none ∨ r.cells (pl.1 ++ "_budget") ≠ none) →
      ∃ f ∈ build_fact_monthly_kpi df, f.period = pl.2 ∧
        f.kpi_name = (dictGet KPI_LABEL_MAP r.kpi).getD r.kpi ∧
        (dictGet KPI_LABEL_MAP r.kpi = none → f.kpi_name = r.kpi) ∧
        f.actual = r.cells (pl.1 ++ "_actual") ∧
        f.budget = r.cells (pl.1 ++ "_budget")) := by
  constructor
  · intro f hf
    simp only [build_fact_monthly_kpi, List.mem_flatMap] at hf
    obtain ⟨r, hr, hmem⟩ := hf
    simp only [List.mem_filterMap] at hmem
    obtain ⟨pl, hpl, hbuild⟩ := hmem
    simp only [buildKpiPeriodRow] at hbuild
    by_cases hc : r.cells (pl.1 ++ "_actual") = none ∧ r.cells (pl.1 ++ "_budget") = none
    · rw [if_pos hc] at hbuild; exact absurd hbuild (by simp)
    · rw [if_neg hc] at hbuild
      obtain rfl := Option.some_injective _ hbuild
      rw [not_and_or] at hc
      exact hc
  · intro r hr pl hpl hcond
    have hc : ¬ (r.cells (pl.1 ++ "_actual") = none ∧ r.cells (pl.1 ++ "_budget") = none) := by
      rcases hcond with h | h
      · exact fun hand => h hand.1
      · exact fun hand => h hand.2
    obtain ⟨f, hrow, hper, hname, hact, hbud⟩ :=
      buildKpiPeriodRow_some r ((dictGet KPI_LABEL_MAP r.kpi).getD r.kpi)
        (registryDirection ((dictGet KPI_LABEL_MAP r.kpi).getD r.kpi)) pl hc
    refine ⟨f, ?_, hper, hname, ?_, hact, hbud⟩
    · simp only [build_fact_monthly_kpi, List.mem_flatMap]
      exact ⟨r, hr, List.mem_filterMap.mpr ⟨pl, hpl, hrow⟩⟩
    · intro hnone
      rw [hname, hnone]
      rfl

/-- Cell table with only the August actual present. -/
def unmappedCells : String → Option ℚ := fun c =>
  if c = "aug_actual" then some 7 else none

/-- Concrete scorecard row with a raw label absent from KPI_LABEL_MAP. -/
def unmappedRow : KpiScorecardRow :=
  { kpi := "Mystery KPI", comments := none, cells := unmappedCells }

/-- Witness for C8: the unmapped "Mystery KPI" row with only `aug_actual`
present yields a row for period 2020-08 carrying the raw label. -/
theorem fact_builder_emission_witness :
    ∃ f ∈ build_fact_monthly_kpi [unmappedRow], f.period = ("aug", "2020-08").2 ∧
      f.kpi_name = (dictGet KPI_LABEL_MAP unmappedRow.kpi).getD unmappedRow.kpi ∧
      (dictGet KPI_LABEL_MAP unmappedRow.kpi = none → f.kpi_name = unmappedRow.kpi) ∧
      f.actual = unmappedRow.cells (("aug", "2020-08").1 ++ "_actual") ∧
      f.budget = unmappedRow.cells (("aug", "2020-08").1 ++ "_budget") :=
  (fact_builder_emission [unmappedRow]).2 unmappedRow (List.mem_singleton.mpr rfl)
    ("aug", "2020-08") (by decide) (Or.inl (by decide))

/-! ## `kpis.py`: summarise_daily_to_monthly -/

/-- A calendar date (`pd.Timestamp` at day grain). -/
structure Date where
  year : ℕ
  month : ℕ
  day : ℕ
deriving DecidableEq

/-- `date.dt.to_period("M").dt.to_timestamp()`: the calendar month of a
date, encoded as year*100 + month. -/
def month_floor (d : Date) : ℕ := d.year * 100 + d.month

/-- One row of `fact_daily_plant`, with the fixed schema produced by
`build_fact_daily_plant` (all sum/mean columns of
`summarise_daily_to_monthly` are present in that schema, so the
column-availability filter of lines 107-118 keeps every column and
`agg_dict` is never empty). -/
structure DailyRow where
  date : Date
  plant : String
  crushed_tonnage_actual : Option ℚ
  crushed_tonnage_target : Option ℚ
  milled_tonnage_actual : Option ℚ
  milled_tonnage_target : Option ℚ
  milling_rate_tph_actual : Option ℚ
  recovery_pct_actual : Option ℚ
  recovery_pct_target : Option ℚ
  oz_produced_actual : Option ℚ
  oz_produced_target : Option ℚ
  crusher_availability_pct : Option ℚ
  mill_availability_pct : Option ℚ
deriving DecidableEq

/-- The daily DataFrame: its rows, plus whether a "plant" column exists
(`"plant" in df.columns` on line 121; when absent, per-row `plant` values
are ignored). -/
structure DailyDF where
  has_plant_col : Bool
  rows : List DailyRow

/-- One row of the monthly summary: the group key, the inserted plant
column, the summed columns and the averaged columns. -/
structure MonthlyRow where
  month : ℕ
  plant : String
  crushed_tonnage_actual : ℚ
  crushed_tonnage_target : ℚ
  milled_tonnage_actual : ℚ
  milled_tonnage_target : ℚ
  oz_produced_actual : ℚ
  oz_produced_target : ℚ
  milling_rate_tph_actual : Option ℚ
  recovery_pct_actual : Option ℚ
  recovery_pct_target : Option ℚ
  crusher_availability_pct : Option ℚ
  mill_availability_pct : Option ℚ
deriving DecidableEq

/-- pandas `.agg("sum")` with default skipna: sum of present values, `0`
for an all-missing group. -/
def aggSum (xs : List (Option ℚ)) : ℚ := (xs.filterMap id).sum

/-- pandas `.agg("mean")` with default skipna: mean of present values,
missing (NaN) for an all-missing group. -/
def aggMean (xs : List (Option ℚ)) : Option ℚ :=
  let v := xs.filterMap id
  if v.length = 0 then none else some (v.sum / v.length)

/-- The rows of one `groupby("month")` partition. -/
def monthGroup (rows : List DailyRow) (m : ℕ) : List DailyRow :=
  rows.filter (fun r => month_floor r.date == m)

/-- The group keys of `groupby("month")`: the distinct months of the input
dates, in ascending order (pandas sorts group keys). -/
def monthKeys (rows : List DailyRow) : List ℕ :=
  List.insertionSort (fun a b => a ≤ b)
    ((rows.map (fun r => month_floor r.date)).dedup)

/-- The aggregated output row for one month. -/
def buildMonthlyRow (rows : List DailyRow) (plant : String) (m : ℕ) :
    MonthlyRow :=
  let g := monthGroup rows m
  { month := m
    plant := plant
    crushed_tonnage_actual := aggSum (g.map (fun r => r.crushed_tonnage_actual))
    crushed_tonnage_target := aggSum (g.map (fun r => r.crushed_tonnage_target))
    milled_tonnage_actual := aggSum (g.map (fun r => r.milled_tonnage_actual))
    milled_tonnage_target := aggSum (g.map (fun r => r.milled_tonnage_target))
    oz_produced_actual := aggSum (g.map (fun r => r.oz_produced_actual))
    oz_produced_target := aggSum (g.map (fun r => r.oz_produced_target))
    milling_rate_tph_actual := aggMean (g.map (fun r => r.milling_rate_tph_actual))
    recovery_pct_actual := aggMean (g.map (fun r => r.recovery_pct_actual))
    recovery_pct_target := aggMean (g.map (fun r => r.recovery_pct_target))
    crusher_availability_pct := aggMean (g.map (fun r => r.crusher_availability_pct))
    mill_availability_pct := aggMean (g.map (fun r => r.mill_availability_pct)) }

/-- `summarise_daily_to_monthly` from `kpis.py` lines 71-124: empty input
gives an empty result; otherwise one aggregated row per distinct month,
each stamped with the first row's plant (line 121) or the default plant
name when there is no plant column. -/
def summarise_daily_to_monthly (df : DailyDF) : List MonthlyRow :=
  match df.rows with
  | [] => []
  | first :: _ =>
    (monthKeys df.rows).map
      (buildMonthlyRow df.rows
        (if df.has_plant_col then first.plant else "Ngezi Concentrator"))

/-! ## Claim theorems about summarise_daily_to_monthly -/

/-- Claim C6: the months of the monthly summary are exactly the distinct
calendar months of the input dates — no extra, none missing — and an empty
input yields an empty result, never a synthetic all-null row. -/
theorem aggregation_months_exact (df : DailyDF) :
    (∀ m : ℕ, m ∈ (summarise_daily_to_monthly df).map MonthlyRow.month ↔
      m ∈ df.rows.map (fun r => month_floor r.date)) ∧
    (df.rows = [] → summarise_daily_to_monthly df = []) := by
  obtain ⟨hp, rows⟩ := df
  cases rows with
  | nil => exact ⟨fun m => by simp [summarise_daily_to_monthly], fun _ => rfl⟩
  | cons first rest =>
    refine ⟨?_, fun h => absurd h (List.cons_ne_nil _ _)⟩
    intro m
    show m ∈ (List.map
        (buildMonthlyRow (first :: rest)
          (if hp then first.plant else "Ngezi Concentrator"))
        (monthKeys (first :: rest))).map MonthlyRow.month ↔ _
    rw [List.map_map]
    have hcomp : MonthlyRow.month ∘
        buildMonthlyRow (first :: rest)
          (if hp then first.plant else "Ngezi Concentrator") = id :=
      funext (fun _ => rfl)
    rw [hcomp, List.map_id]
    show m ∈ monthKeys (first :: rest) ↔ _
    rw [monthKeys, (List.perm_insertionSort _ _).mem_iff, List.mem_dedup]

/-- Claim C10: every output row of a non-empty monthly summary is stamped
with a single plant value: the first input row's plant when a plant column
exists, the default plant name otherwise — the grouping is by month only,
so rows of different plants in one month collapse into one output row. -/
theorem monthly_plant_stamp (df : DailyDF) (first : DailyRow)
    (rest : List DailyRow) (hr : df.rows = first :: rest) (row : MonthlyRow)
    (hrow : row ∈ summarise_daily_to_monthly df) :
    row.plant = if df.has_plant_col then first.plant else "Ngezi Concentrator" := by
  obtain ⟨hp, rows⟩ := df
  simp only at hr
  subst hr
  obtain ⟨m, _, hrow_eq⟩ := List.mem_map.mp hrow
  rw [← hrow_eq]
  rfl

/-- Two concrete daily rows of the same month but different plants. -/
def dailyRowA : DailyRow :=
  { date := ⟨2021, 3, 5⟩, plant := "A",
    crushed_tonnage_actual := none, crushed_tonnage_target := none,
    milled_tonnage_actual := none, milled_tonnage_target := none,
    milling_rate_tph_actual := none, recovery_pct_actual := none,
    recovery_pct_target := none, oz_produced_actual := none,
    oz_produced_target := none, crusher_availability_pct := none,
    mill_availability_pct := none }

/-- Second concrete daily row: same month, plant "B". -/
def dailyRowB : DailyRow :=
  { dailyRowA with date := ⟨2021, 3, 20⟩, plant := "B" }

/-- Concrete daily frame with a plant column and two rows. -/
def dailyDFAB : DailyDF := { has_plant_col := true, rows := [dailyRowA, dailyRowB] }

/-- The single monthly row produced for `dailyDFAB`. -/
def monthlyRowAB : MonthlyRow :=
  buildMonthlyRow dailyDFAB.rows "A" (month_floor dailyRowA.date)

/-- Witness for C10: the two rows of March 2021, plants "A" and "B",
collapse into one output row stamped with the first row's plant. -/
theorem monthly_plant_stamp_witness :
    monthlyRowAB.plant =
      if dailyDFAB.has_plant_col then dailyRowA.plant else "Ngezi Concentrator" :=
  monthly_plant_stamp dailyDFAB dailyRowA [dailyRowB] rfl monthlyRowAB
    (show monthlyRowAB ∈ [monthlyRowAB] from List.mem_singleton.mpr rfl)

/-- Concrete empty daily frame. -/
def dailyDFEmpty : DailyDF := { has_plant_col := true, rows := [] }

/-- Witness for C6 at concrete inputs: March 2021 is the one month of
`dailyDFAB`, and the empty frame summarises to the empty list. -/
theorem aggregation_months_exact_witness :
    (202103 ∈ (summarise_daily_to_monthly dailyDFAB).map MonthlyRow.month ↔
      202103 ∈ dailyDFAB.rows.map (fun r => month_floor r.date)) ∧
    summarise_daily_to_monthly dailyDFEmpty = [] :=
  ⟨(aggregation_months_exact dailyDFAB).1 202103,
   (aggregation_months_exact dailyDFEmpty).2 rfl⟩

/-! ## `kpis.py`: get_executive_summary -/

/-- One dashboard card of the executive summary. -/
structure DomainCard where
  actual : Option ℚ
  budget : Option ℚ
  var_pct : Option ℚ
  rag : String
deriving DecidableEq

/-- The executive summary: the echoed period plus one card per domain, in
`domain_map` order. -/
structure ExecSummary where
  period : String
  cards : List (String × DomainCard)
deriving DecidableEq

/-- The `domain_map` of `get_executive_summary` (lines 152-159):
KPI name → dashboard domain. -/
def domain_map : List (String × String) :=
  [ ("crushed_tonnage", "crushing"),
    ("milled_tonnage", "milling"),
    ("recovery_6e_pct", "recovery"),
    ("mill_ball_consumption_gt", "mill_balls"),
    ("raw_water_m3t", "water"),
    ("total_cost", "cost") ]

/-- Body of the per-domain loop of `get_executive_summary` (lines 165-195):
the card for one KPI name, from the period-filtered fact rows. -/
def summaryCard (period_df : List KpiFactRow) (kpi_name : String) :
    DomainCard :=
  match period_df.filter (fun f => f.kpi_name == kpi_name) with
  | [] => { actual := none, budget := none, var_pct := none, rag := "grey" }
  | row :: _ =>
    let amber_band := registryAmberBand kpi_name
    let rag :=
      match row.actual, row.budget with
      | some a, some b =>
        classify_performance (some a) (some b) row.direction amber_band
      | _, _ => "grey"
    { actual := row.actual, budget := row.budget,
      var_pct := row.variance_pct, rag := rag }

/-- `get_executive_summary` from `kpis.py` lines 127-197. -/
def get_executive_summary (monthly_kpis : List KpiFactRow)
    (target_period : String) : ExecSummary :=
  let period_df := monthly_kpis.filter (fun f => f.period == target_period)
  { period := target_period
    cards := domain_map.map (fun kd => (kd.2, summaryCard period_df kd.1)) }

/-! ## Claim theorem about get_executive_summary -/

/-- Claim C9: the summary always has the period echo and exactly the
domains of `domain_map` as card keys; a domain with no (period, KPI) match
gets the all-none grey card, and a domain with a match gets the first
matching row's actual, budget and variance_pct passed through verbatim
(missing values stay `none`, never coerced to zero). -/
theorem exec_summary_structure (monthly_kpis : List KpiFactRow)
    (target : String) :
    (get_executive_summary monthly_kpis target).period = target ∧
    (get_executive_summary monthly_kpis target).cards.map Prod.fst =
      domain_map.map Prod.snd ∧
    ∀ kn dom, (kn, dom) ∈ domain_map →
      (((monthly_kpis.filter (fun f => f.period == target)).filter
            (fun f => f.kpi_name == kn) = [] →
        (dom, ({ actual := none, budget := none, var_pct := none,
                 rag := "grey" } : DomainCard)) ∈
          (get_executive_summary monthly_kpis target).cards) ∧
      (∀ row rest,
        (monthly_kpis.filter (fun f => f.period == target)).filter
            (fun f => f.kpi_name == kn) = row :: rest →
        ∃ rag, (dom, ({ actual := row.actual, budget := row.budget,
                        var_pct := row.variance_pct, rag := rag } : DomainCard)) ∈
          (get_executive_summary monthly_kpis target).cards)) := by
  refine ⟨rfl, ?_, ?_⟩
  · show (domain_map.map
        (fun kd => (kd.2, summaryCard
          (monthly_kpis.filter (fun f => f.period == target)) kd.1))).map
        Prod.fst = domain_map.map Prod.snd
    rw [List.map_map]
    rfl
  · intro kn dom hmem
    constructor
    · intro hempt
      have hcard : summaryCard
          (monthly_kpis.filter (fun f => f.period == target)) kn =
          { actual := none, budget := none, var_pct := none, rag := "grey" } := by
        unfold summaryCard
        rw [hempt]
      exact List.mem_map.mpr ⟨(kn, dom), hmem, by rw [← hcard]⟩
    · intro row rest hcons
      have hcard : summaryCard
          (monthly_kpis.filter (fun f => f.period == target)) kn =
          { actual := row.actual, budget := row.budget,
            var_pct := row.variance_pct,
            rag :=
              match row.actual, row.budget with
              | some a, some b =>
                classify_performance (some a) (some b) row.direction
                  (registryAmberBand kn)
              | _, _ => "grey" } := by
        unfold summaryCard
        rw [hcons]
      refine ⟨(summaryCard (monthly_kpis.filter (fun f => f.period == target))
          kn).rag, List.mem_map.mpr ⟨(kn, dom), hmem, ?_⟩⟩
      dsimp only
      rw [hcard]

/-- Witness for C9: Scenario F shape — with no fact rows and target period
"2099-Q1", the summary echoes the period and the "crushing" domain gets
the all-none grey card. -/
theorem exec_summary_structure_witness :
    (get_executive_summary [] "2099-Q1").period = "2099-Q1" ∧
    ("crushing", ({ actual := none, budget := none, var_pct := none,
                    rag := "grey" } : DomainCard)) ∈
      (get_executive_summary [] "2099-Q1").cards :=
  ⟨(exec_summary_structure [] "2099-Q1").1,
   ((exec_summary_structure [] "2099-Q1").2.2 "crushed_tonnage" "crushing"
      (by decide)).1 rfl⟩
